import Mathlib

/-
Verification development for the On-Stage Camera System RTSP server
(src/onstage_camera_system/rtsp.go and config.go).

The Go source is shallowly embedded: handler callbacks become pure
functions on an explicit handler state, the per-PLAY streaming goroutine
`streamFrames` becomes a fold over a list of tick inputs producing an
event trace, and 32-bit unsigned arithmetic is Nat with explicit `% U32`.
-/

namespace OnstageCam

/-- Bytes of an encoded frame payload. -/
abbrev Byte := Nat

/-- Modulus of Go's uint32, the type of `frameCounter` and `timestamp`. -/
def U32 : Nat := 2 ^ 32

/-- Config (config.go): the fields the RTSP core consumes. -/
structure Config where
  FPS : Nat
  RTSPPort : Nat
  StreamPath : String
deriving DecidableEq

/-- NewDefaultConfig (config.go): the defaults relevant to the RTSP core. -/
def NewDefaultConfig : Config :=
  { FPS := 30, RTSPPort := 8554, StreamPath := "stream" }

/-- RTP header fields set by the streaming loop (rtsp.go lines 213-216).
`sequenceNumber` holds the value of the uint32 `frameCounter` that the Go
code assigns to the header field. -/
structure RTPHeader where
  timestamp : Nat
  sequenceNumber : Nat
  marker : Bool
deriving DecidableEq

/-- An RTP packet as written by `conn.WritePacketRTP` (rtsp.go line 219). -/
structure RTPPacket where
  header : RTPHeader
  payload : List Byte
deriving DecidableEq

/-- Modelled from the spec: `rtph264.Packetize(payload, maxPayloadSize)` is
external library code (gortsplib) not present in the repository; the spec's
Packetizer contract says it fragments one payload into an ordered sequence
of at most-`m`-byte fragments preserving payload byte order, one fragment
when the payload fits. `chunkFuel` peels off `m` bytes at a time; the fuel
argument (instantiated with the payload length, enough whenever `1 ≤ m`)
makes the recursion structural. -/
def chunkFuel (m : Nat) : Nat → List Byte → List (List Byte)
  | _, [] => []
  | 0, x :: xs => [x :: xs]
  | f + 1, x :: xs => (x :: xs).take m :: chunkFuel m f ((x :: xs).drop m)

/-- Modelled from the spec: the Packetizer entry point, `fragment(payload,
maxPayloadSize) -> ordered sequence of fragments`. -/
def Packetize (payload : List Byte) (maxPayloadSize : Nat) : List (List Byte) :=
  chunkFuel maxPayloadSize payload.length payload

/-- The indexed for-loop of rtsp.go lines 212-225: fragment `i` (counting
from `i0`) gets the frame timestamp `ts`, sequence number `frameCounter`
(which started at `ctr` and is incremented once per packet, wrapping as a
uint32), and marker `i == last`. -/
def stampFragments (ts ctr last : Nat) : Nat → List (List Byte) → List RTPPacket
  | _, [] => []
  | i0, frag :: rest =>
      { header := { timestamp := ts, sequenceNumber := (ctr + i0) % U32,
                    marker := i0 == last },
        payload := frag } :: stampFragments ts ctr last (i0 + 1) rest

/-- Packetization and stamping of one frame (rtsp.go lines 211-225): the
loop calls this with `mtu = 1400` as in `rtph264.Packetize(frame.Data(), 1400)`. -/
def emitFrame (mtu ts ctr : Nat) (data : List Byte) : List RTPPacket :=
  let pkts := Packetize data mtu
  stampFragments ts ctr (pkts.length - 1) 0 pkts

/-- Outcome of one ticker tick as seen by the loop body (rtsp.go 197-208):
the connection may have left the PLAY state (line 199, break), the camera
read may fail (lines 204-208, log and continue), or a frame arrives. -/
inductive TickInput where
  | notPlaying
  | frameError
  | frame (data : List Byte)
deriving DecidableEq

/-- Observable events of the streaming loop: acquiring a frame from the
camera (rtsp.go line 204), writing one RTP packet (line 219), and
releasing the frame buffer back to the camera (line 228). -/
inductive Event where
  | getFrameOk (data : List Byte)
  | getFrameErr
  | writePacket (p : RTPPacket)
  | release
deriving DecidableEq

/-- The loop-local mutable state of `streamFrames`: `frameCounter` and
`timestamp` (rtsp.go lines 193-194), both uint32. -/
structure StreamState where
  frameCounter : Nat
  timestamp : Nat
deriving DecidableEq

/-- One successful-frame iteration of the loop body (rtsp.go lines
203-231): packetize and write all fragments, release the frame, advance
`frameCounter` by the packet count (line 224, once per packet) and
`timestamp` by `inc` (line 231, once per frame), both wrapping as uint32. -/
def stepFrame (inc : Nat) (s : StreamState) (data : List Byte) :
    StreamState × List Event :=
  let pkts := emitFrame 1400 s.timestamp s.frameCounter data
  (⟨(s.frameCounter + pkts.length) % U32, (s.timestamp + inc) % U32⟩,
   Event.getFrameOk data :: (pkts.map Event.writePacket ++ [Event.release]))

/-- The ticker loop of `streamFrames` (rtsp.go lines 197-232) as a fold
over tick inputs: `notPlaying` breaks the loop, `frameError` logs and
continues with unchanged state, a frame runs `stepFrame`. -/
def streamFrames (inc : Nat) : StreamState → List TickInput → List Event
  | _, [] => []
  | _, TickInput.notPlaying :: _ => []
  | s, TickInput.frameError :: ts => Event.getFrameErr :: streamFrames inc s ts
  | s, TickInput.frame d :: ts =>
      let r := stepFrame inc s d
      r.2 ++ streamFrames inc r.1 ts

/-- `streamFrames` as started at rtsp.go lines 188-195: `frameCounter` and
`timestamp` are fresh locals initialized to 0, and the per-frame timestamp
increment is `90000 / FPS` (Go integer division, line 195). -/
def streamFramesRun (fps : Nat) (ticks : List TickInput) : List Event :=
  streamFrames (90000 / fps) ⟨0, 0⟩ ticks

/-- OnPlay (rtsp.go lines 172-179) spawns `go h.streamFrames(ctx.Conn)`;
the whole emission of one PLAY is one `streamFramesRun`. OnPause (lines
182-185) only logs: it captures no counters, so a later PLAY starts
another fresh `streamFramesRun`. -/
def OnPlayStream (fps : Nat) (ticks : List TickInput) : List Event :=
  streamFramesRun fps ticks

/-- The RTP packets written to the client, in order, out of an event trace. -/
def emitted (evs : List Event) : List RTPPacket :=
  evs.filterMap fun e =>
    match e with
    | Event.writePacket p => some p
    | _ => none

/-- H264 track created on first DESCRIBE (rtsp.go lines 107-112). -/
structure H264Track where
  payloadTyp : Nat
  sps : List Byte
  pps : List Byte
  packetizationMode : Nat
deriving DecidableEq

/-- A media entry (rtsp.go lines 115-118): a video media with its formats. -/
structure Media where
  isVideo : Bool
  formats : List H264Track
deriving DecidableEq

/-- Per-media stream record (rtsp.go lines 79-83). The listener fields are
never assigned anywhere in the source, so a record carries `none` listeners
from creation onwards; `none` models a nil Go pointer. -/
structure RtspStream where
  udpRTPListener : Option Nat
  udpRTCPListener : Option Nat
deriving DecidableEq

/-- A freshly created `&rtspStream{}` (rtsp.go line 136): all fields nil. -/
def RtspStream.empty : RtspStream := ⟨none, none⟩

/-- Transport protocols of gortsplib's transport header; the source
switches on UDP and TCP and has a default arm for anything else (such as
UDP-multicast). -/
inductive TransportProtocol where
  | udp
  | udpMulticast
  | tcp
deriving DecidableEq

/-- The Transport structure exchanged in SETUP (rtsp.go lines 147-163):
optional port pairs and interleaved channel ids; `none` models nil. -/
structure Transport where
  protocol : TransportProtocol
  serverPorts : Option (Nat × Nat)
  clientPorts : Option (Nat × Nat)
  interleavedIDs : Option (Nat × Nat)
deriving DecidableEq

/-- The parts of gortsplib's OnSetup context the handler reads (plus the
request path, which the handler never reads). -/
structure SetupCtx where
  path : String
  mediaIndex : Nat
  transport : Transport
deriving DecidableEq

/-- The mutable fields of RTSPHandler (rtsp.go lines 67-77): configured
stream path plus the session state `medias`, `streams`, `videoTrack`.
`streams = none` models the nil slice before the first SETUP. -/
structure HandlerState where
  streamPath : String
  medias : List Media
  streams : Option (List RtspStream)
  videoTrack : Option H264Track
deriving DecidableEq

/-- The handler installed by NewRTSPServer (rtsp.go lines 30-35): all
session-state fields start nil. -/
def newHandler (config : Config) : HandlerState :=
  { streamPath := config.StreamPath, medias := [], streams := none,
    videoTrack := none }

/-- Result of OnDescribe: a MediaInfo or a Go error. -/
inductive DescribeResult where
  | ok (medias : List Media)
  | error (msg : String)
deriving DecidableEq

/-- The H264 track literal of rtsp.go lines 107-112. -/
def defaultVideoTrack : H264Track :=
  { payloadTyp := 96, sps := [], pps := [], packetizationMode := 1 }

/-- OnDescribe (rtsp.go lines 96-126): rejects a mismatched path with a
"path not found" error, lazily creates the H264 track and media list, and
returns the medias. -/
def OnDescribe (h : HandlerState) (path : String) :
    DescribeResult × HandlerState :=
  if path ≠ h.streamPath then
    (DescribeResult.error ("path not found: " ++ path), h)
  else
    let h1 : HandlerState :=
      if h.videoTrack.isNone then
        { h with videoTrack := some defaultVideoTrack,
                 medias := [{ isVideo := true, formats := [defaultVideoTrack] }] }
      else h
    (DescribeResult.ok h1.medias, h1)

/-- Result of OnSetup: a negotiated Transport, a Go error, or a runtime
panic (nil `ClientPorts` dereference at rtsp.go lines 150-151, or the
out-of-range index `h.streams[ctx.MediaIndex]` at line 141). -/
inductive SetupResult where
  | ok (transport : Transport)
  | error (msg : String)
  | panicked
deriving DecidableEq

/-- The first-SETUP initialization of rtsp.go lines 132-138: when
`h.streams` is nil it becomes a slice of `len(h.medias)` fresh records. -/
def initStreams (h : HandlerState) : HandlerState :=
  if h.streams.isNone then
    { h with streams := some (List.replicate h.medias.length RtspStream.empty) }
  else h

/-- OnSetup (rtsp.go lines 129-169): initialize `streams` if nil, index the
stream for `ctx.MediaIndex` (line 141; panics when out of range), then
switch on the transport protocol. UDP echoes the client ports back as
`ServerPorts` (lines 146-155; panics on nil client ports); TCP echoes the
interleaved ids (lines 157-164); anything else is the default error arm
(line 167). The request path is never consulted. -/
def OnSetup (h : HandlerState) (ctx : SetupCtx) : SetupResult × HandlerState :=
  if ctx.mediaIndex < ((initStreams h).streams.getD []).length then
    match ctx.transport.protocol with
    | TransportProtocol.udp =>
        match ctx.transport.clientPorts with
        | some cp =>
            (SetupResult.ok { protocol := TransportProtocol.udp,
                              serverPorts := some cp, clientPorts := some cp,
                              interleavedIDs := none }, initStreams h)
        | none => (SetupResult.panicked, initStreams h)
    | TransportProtocol.tcp =>
        (SetupResult.ok { protocol := TransportProtocol.tcp,
                          serverPorts := none, clientPorts := none,
                          interleavedIDs := ctx.transport.interleavedIDs }, initStreams h)
    | _ => (SetupResult.error "unhandled transport protocol", initStreams h)
  else (SetupResult.panicked, initStreams h)

/-- Server-level state: NewRTSPServer (rtsp.go lines 26-58) creates ONE
RTSPHandler and installs it in the gortsplib server, so every connection's
callbacks run against the same handler instance. -/
structure ServerState where
  handler : HandlerState
deriving DecidableEq

/-- A SETUP as dispatched by the server for connection `conn`: gortsplib
calls the single installed handler, so the connection identity does not
select any state. -/
def serverOnSetup (conn : Nat) (s : ServerState) (ctx : SetupCtx) :
    SetupResult × ServerState :=
  let r := OnSetup s.handler ctx
  (r.1, { handler := r.2 })

/-- A DESCRIBE as dispatched by the server for connection `conn`: again
the single installed handler serves every connection. -/
def serverOnDescribe (conn : Nat) (s : ServerState) (path : String) :
    DescribeResult × ServerState :=
  let r := OnDescribe s.handler path
  (r.1, { handler := r.2 })

/-- A server as just created by NewRTSPServer with the default config. -/
def freshServer : ServerState := { handler := newHandler NewDefaultConfig }

/-- Handler state of the server after DESCRIBE has been served on the
configured path of the default config (the normal state in which SETUP
arrives). -/
def postDescribeHandler : HandlerState :=
  (OnDescribe (newHandler NewDefaultConfig) NewDefaultConfig.StreamPath).2

/-- A well-formed UDP SETUP request on the configured path with client
ports 5000/5001. -/
def udpSetupCtx : SetupCtx :=
  { path := "stream", mediaIndex := 0,
    transport := { protocol := TransportProtocol.udp, serverPorts := none,
                   clientPorts := some (5000, 5001), interleavedIDs := none } }

/-- A SETUP request on the configured path whose transport protocol is
neither UDP nor TCP. -/
def multicastSetupCtx : SetupCtx :=
  { path := "stream", mediaIndex := 0,
    transport := { protocol := TransportProtocol.udpMulticast, serverPorts := none,
                   clientPorts := none, interleavedIDs := none } }

/-- Release discipline over an event trace: outside a frame (mode
`false`) only acquisitions and failed reads may occur; after a successful
acquisition (mode `true`) only packet writes may occur until exactly one
release returns to mode `false`. An acquisition while a frame is held, a
second release, or a trace ending with a held frame all fail. -/
def releaseOK : Bool → List Event → Bool
  | false, [] => true
  | false, Event.getFrameErr :: rest => releaseOK false rest
  | false, Event.getFrameOk _ :: rest => releaseOK true rest
  | false, _ => false
  | true, Event.writePacket _ :: rest => releaseOK true rest
  | true, Event.release :: rest => releaseOK false rest
  | true, _ => false

theorem chunkFuel_join (m : Nat) (hm : 1 ≤ m) :
    ∀ (f : Nat) (xs : List Byte), xs.length ≤ f → (chunkFuel m f xs).flatten = xs := by
  intro f
  induction f with
  | zero =>
    intro xs hxs
    cases xs with
    | nil => rfl
    | cons x xs => simp at hxs
  | succ f ih =>
    intro xs hxs
    cases xs with
    | nil => rfl
    | cons x xs =>
      show ((x :: xs).take m :: chunkFuel m f ((x :: xs).drop m)).join = x :: xs
      have hle : ((x :: xs).drop m).length ≤ f := by
        rw [List.length_drop]
        simp only [List.length_cons] at hxs ⊢
        omega
      simp only [List.flatten_cons]
      rw [ih _ hle, List.take_append_drop]

theorem chunkFuel_length (m : Nat) (hm : 1 ≤ m) :
    ∀ (f : Nat) (xs : List Byte), xs.length ≤ f →
      (chunkFuel m f xs).length = (xs.length + m - 1) / m := by
  intro f
  induction f with
  | zero =>
    intro xs hxs
    cases xs with
    | nil =>
      show (0 : Nat) = (0 + m - 1) / m
      exact (Nat.div_eq_of_lt (by omega)).symm
    | cons x xs => simp at hxs
  | succ f ih =>
    intro xs hxs
    cases xs with
    | nil =>
      show (0 : Nat) = (0 + m - 1) / m
      exact (Nat.div_eq_of_lt (by omega)).symm
    | cons x xs =>
      have hdl : ((x :: xs).drop m).length = (x :: xs).length - m := by
        rw [List.length_drop]
      have hle : ((x :: xs).drop m).length ≤ f := by
        rw [hdl]
        simp only [List.length_cons] at hxs ⊢
        omega
      show (chunkFuel m f ((x :: xs).drop m)).length + 1 = ((x :: xs).length + m - 1) / m
      rw [ih _ hle, hdl]
      have hL1 : 1 ≤ (x :: xs).length := by simp
      have e2 : ((x :: xs).length - m + m - 1) / m = ((x :: xs).length - 1) / m := by
        rcases le_or_lt m (x :: xs).length with h | h
        · have e : (x :: xs).length - m + m - 1 = (x :: xs).length - 1 := by omega
          rw [e]
        · have e : (x :: xs).length - m = 0 := by omega
          rw [e, Nat.div_eq_of_lt (by omega), Nat.div_eq_of_lt (by omega)]
      have e1 : (x :: xs).length + m - 1 = ((x :: xs).length - 1) + m := by omega
      rw [e2, e1, Nat.add_div_right _ (by omega)]

theorem Packetize_join (payload : List Byte) (m : Nat) (hm : 1 ≤ m) :
    (Packetize payload m).flatten = payload :=
  chunkFuel_join m hm payload.length payload (Nat.le_refl _)

theorem Packetize_length (payload : List Byte) (m : Nat) (hm : 1 ≤ m) :
    (Packetize payload m).length = (payload.length + m - 1) / m :=
  chunkFuel_length m hm payload.length payload (Nat.le_refl _)

theorem Packetize_length_pos (payload : List Byte) (m : Nat) (hm : 1 ≤ m)
    (hS : 1 ≤ payload.length) : 1 ≤ (Packetize payload m).length := by
  rw [Packetize_length payload m hm]
  have h1 : m ≤ payload.length + m - 1 := by omega
  have h0 : 0 < m := by omega
  exact (Nat.one_le_div_iff h0).2 h1

theorem stampFragments_length (ts ctr last : Nat) :
    ∀ (frags : List (List Byte)) (i0 : Nat),
      (stampFragments ts ctr last i0 frags).length = frags.length := by
  intro frags
  induction frags with
  | nil => intro i0; rfl
  | cons a l ih =>
    intro i0
    show (stampFragments ts ctr last (i0 + 1) l).length + 1 = l.length + 1
    rw [ih]

theorem stampFragments_map_payload (ts ctr last : Nat) :
    ∀ (frags : List (List Byte)) (i0 : Nat),
      (stampFragments ts ctr last i0 frags).map RTPPacket.payload = frags := by
  intro frags
  induction frags with
  | nil => intro i0; rfl
  | cons a l ih =>
    intro i0
    show a :: (stampFragments ts ctr last (i0 + 1) l).map RTPPacket.payload = a :: l
    rw [ih]

theorem stampFragments_timestamp (ts ctr last : Nat) :
    ∀ (frags : List (List Byte)) (i0 : Nat) (p : RTPPacket),
      p ∈ stampFragments ts ctr last i0 frags → p.header.timestamp = ts := by
  intro frags
  induction frags with
  | nil => intro i0 p h; simp [stampFragments] at h
  | cons a l ih =>
    intro i0 p h
    rcases List.mem_cons.1 h with h1 | h1
    · rw [h1]
    · exact ih (i0 + 1) p h1

theorem stampFragments_getElem (ts ctr last : Nat) :
    ∀ (frags : List (List Byte)) (i0 k : Nat),
      (stampFragments ts ctr last i0 frags)[k]? =
        frags[k]?.map fun frag =>
          { header := { timestamp := ts, sequenceNumber := (ctr + (i0 + k)) % U32,
                        marker := (i0 + k) == last },
            payload := frag } := by
  intro frags
  induction frags with
  | nil => intro i0 k; rfl
  | cons a l ih =>
    intro i0 k
    cases k with
    | zero => simp [stampFragments]
    | succ k =>
      simp only [stampFragments, List.getElem?_cons_succ]
      rw [ih (i0 + 1) k]
      have e : i0 + 1 + k = i0 + (k + 1) := by omega
      rw [e]

theorem stampFragments_markers (ts ctr : Nat) :
    ∀ (frags : List (List Byte)) (i0 last : Nat),
      i0 + frags.length = last + 1 → frags ≠ [] →
      (stampFragments ts ctr last i0 frags).map (fun p => p.header.marker) =
        List.replicate (frags.length - 1) false ++ [true] := by
  intro frags
  induction frags with
  | nil => intro i0 last hlen hne; exact absurd rfl hne
  | cons a l ih =>
    intro i0 last hlen hne
    cases l with
    | nil =>
      have e : i0 = last := by simp only [List.length_cons, List.length_nil] at hlen; omega
      subst e
      simp [stampFragments]
    | cons b l2 =>
      have hmark : (i0 == last) = false := by
        simp only [List.length_cons] at hlen
        simp only [beq_eq_false_iff_ne, ne_eq]
        omega
      have hlen2 : (i0 + 1) + (b :: l2).length = last + 1 := by
        simp only [List.length_cons] at hlen ⊢
        omega
      show (i0 == last) ::
          (stampFragments ts ctr last (i0 + 1) (b :: l2)).map (fun p => p.header.marker) = _
      rw [hmark, ih (i0 + 1) last hlen2 (by simp)]
      simp [List.replicate_succ]

theorem emitted_append (a b : List Event) :
    emitted (a ++ b) = emitted a ++ emitted b :=
  List.filterMap_append a b _

theorem emitted_map_write (pkts : List RTPPacket) :
    emitted (pkts.map Event.writePacket) = pkts := by
  induction pkts with
  | nil => rfl
  | cons p l ih =>
    show p :: emitted (l.map Event.writePacket) = p :: l
    rw [ih]

theorem emitted_stepFrame (inc : Nat) (s : StreamState) (d : List Byte) :
    emitted (stepFrame inc s d).2 = emitFrame 1400 s.timestamp s.frameCounter d := by
  show emitted ((emitFrame 1400 s.timestamp s.frameCounter d).map Event.writePacket
      ++ [Event.release]) = _
  rw [emitted_append, emitted_map_write]
  show emitFrame 1400 s.timestamp s.frameCounter d ++ ([] : List RTPPacket) = _
  rw [List.append_nil]

theorem emitFrame_length (mtu ts ctr : Nat) (d : List Byte) :
    (emitFrame mtu ts ctr d).length = (Packetize d mtu).length :=
  stampFragments_length ts ctr _ _ 0

theorem emitFrame_getElem (mtu ts ctr k : Nat) (d : List Byte) (p : RTPPacket)
    (h : (emitFrame mtu ts ctr d)[k]? = some p) :
    p.header.sequenceNumber = (ctr + k) % U32 ∧ p.header.timestamp = ts ∧
      p.header.marker = (k == (Packetize d mtu).length - 1) := by
  rw [emitFrame, stampFragments_getElem] at h
  rcases Option.map_eq_some'.1 h with ⟨frag, _, hp⟩
  rw [← hp]
  refine ⟨?_, rfl, ?_⟩ <;> simp

theorem emitted_streamFrames_frame (inc : Nat) (s : StreamState) (d : List Byte)
    (ts : List TickInput) :
    emitted (streamFrames inc s (TickInput.frame d :: ts)) =
      emitFrame 1400 s.timestamp s.frameCounter d ++
        emitted (streamFrames inc (stepFrame inc s d).1 ts) := by
  show emitted ((stepFrame inc s d).2 ++ streamFrames inc (stepFrame inc s d).1 ts) = _
  rw [emitted_append, emitted_stepFrame]

theorem emitted_seq (inc : Nat) :
    ∀ (ticks : List TickInput) (s : StreamState) (k : Nat) (p : RTPPacket),
      (emitted (streamFrames inc s ticks))[k]? = some p →
      p.header.sequenceNumber = (s.frameCounter + k) % U32 := by
  intro ticks
  induction ticks with
  | nil => intro s k p h; simp [streamFrames, emitted] at h
  | cons t ts ih =>
    intro s k p h
    cases t with
    | notPlaying => simp [streamFrames, emitted] at h
    | frameError =>
      have h2 : (emitted (streamFrames inc s ts))[k]? = some p := h
      exact ih s k p h2
    | frame d =>
      rw [emitted_streamFrames_frame] at h
      rcases Nat.lt_or_ge k (emitFrame 1400 s.timestamp s.frameCounter d).length
        with hk | hk
      · rw [List.getElem?_append_left hk] at h
        exact (emitFrame_getElem 1400 s.timestamp s.frameCounter k d p h).1
      · rw [List.getElem?_append_right hk] at h
        have h3 := ih (stepFrame inc s d).1 _ p h
        have hctr : (stepFrame inc s d).1.frameCounter =
            (s.frameCounter + (emitFrame 1400 s.timestamp s.frameCounter d).length)
              % U32 := rfl
        rw [hctr, Nat.mod_add_mod] at h3
        have e : s.frameCounter + (emitFrame 1400 s.timestamp s.frameCounter d).length
            + (k - (emitFrame 1400 s.timestamp s.frameCounter d).length)
            = s.frameCounter + k := by omega
        rw [e] at h3
        exact h3

theorem streamFrames_replicate_err (inc n : Nat) (s : StreamState)
    (ticks : List TickInput) :
    streamFrames inc s (List.replicate n TickInput.frameError ++ ticks) =
      List.replicate n Event.getFrameErr ++ streamFrames inc s ticks := by
  induction n with
  | zero => rfl
  | succ n ih =>
    simp only [List.replicate_succ, List.cons_append]
    show Event.getFrameErr ::
        streamFrames inc s (List.replicate n TickInput.frameError ++ ticks) = _
    rw [ih]

theorem releaseOK_map_write (pkts : List RTPPacket) (rest : List Event) :
    releaseOK true (pkts.map Event.writePacket ++ rest) = releaseOK true rest := by
  induction pkts with
  | nil => rfl
  | cons p l ih =>
    show releaseOK true (l.map Event.writePacket ++ rest) = _
    exact ih

theorem releaseOK_streamFrames (inc : Nat) :
    ∀ (ticks : List TickInput) (s : StreamState),
      releaseOK false (streamFrames inc s ticks) = true := by
  intro ticks
  induction ticks with
  | nil => intro s; rfl
  | cons t ts ih =>
    intro s
    cases t with
    | notPlaying => rfl
    | frameError => exact ih s
    | frame d =>
      show releaseOK false ((stepFrame inc s d).2 ++
          streamFrames inc (stepFrame inc s d).1 ts) = true
      show releaseOK true
          (((emitFrame 1400 s.timestamp s.frameCounter d).map Event.writePacket
              ++ [Event.release]) ++ streamFrames inc (stepFrame inc s d).1 ts) = true
      rw [List.append_assoc, releaseOK_map_write]
      show releaseOK false (streamFrames inc (stepFrame inc s d).1 ts) = true
      exact ih _

theorem emitted_replicate_err (n : Nat) :
    emitted (List.replicate n Event.getFrameErr) = [] := by
  induction n with
  | zero => rfl
  | succ n ih =>
    simp only [List.replicate_succ]
    show emitted (List.replicate n Event.getFrameErr) = []
    exact ih

theorem initStreams_none (h : HandlerState) (hnil : h.streams = none) :
    initStreams h =
      { h with streams := some (List.replicate h.medias.length RtspStream.empty) } := by
  unfold initStreams
  rw [hnil]
  simp

theorem initStreams_some (h : HandlerState) (l : List RtspStream)
    (hs : h.streams = some l) : initStreams h = h := by
  unfold initStreams
  rw [hs]
  simp

theorem OnSetup_udp (h : HandlerState) (ctx : SetupCtx) (cp : Nat × Nat)
    (hproto : ctx.transport.protocol = TransportProtocol.udp)
    (hcp : ctx.transport.clientPorts = some cp)
    (hidx : ctx.mediaIndex < ((initStreams h).streams.getD []).length) :
    OnSetup h ctx =
      (SetupResult.ok { protocol := TransportProtocol.udp, serverPorts := some cp,
                        clientPorts := some cp, interleavedIDs := none },
       initStreams h) := by
  unfold OnSetup
  rw [if_pos hidx, hproto, hcp]

theorem OnSetup_unhandled (h : HandlerState) (ctx : SetupCtx)
    (hproto : ctx.transport.protocol = TransportProtocol.udpMulticast)
    (hidx : ctx.mediaIndex < ((initStreams h).streams.getD []).length) :
    OnSetup h ctx =
      (SetupResult.error "unhandled transport protocol", initStreams h) := by
  unfold OnSetup
  rw [if_pos hidx, hproto]

theorem initStreams_none_idx (h : HandlerState) (hnil : h.streams = none)
    (i : Nat) (hidx : i < h.medias.length) :
    i < ((initStreams h).streams.getD []).length := by
  rw [initStreams_none h hnil]
  show i < (List.replicate h.medias.length RtspStream.empty).length
  rw [List.length_replicate]
  exact hidx

/-- C1: within a playing session's streaming loop, every RTP packet
written for one frame carries that frame's timestamp (the inner loop sets
`pkt.Header.Timestamp = timestamp` for every fragment and `timestamp` is
only updated after the inner loop), and after emitting all fragments the
session timestamp has advanced by exactly `90000 / FPS` 90 kHz clock
ticks — once per frame, never per packet (assuming the uint32 timestamp
does not wrap on this frame). -/
theorem C1_timestamp_per_frame (fps ts ctr : Nat) (d : List Byte) (p : RTPPacket)
    (hts : ts + 90000 / fps < U32)
    (hp : p ∈ emitted (stepFrame (90000 / fps) ⟨ctr, ts⟩ d).2) :
    p.header.timestamp = ts ∧
      ((stepFrame (90000 / fps) ⟨ctr, ts⟩ d).1).timestamp = ts + 90000 / fps := by
  constructor
  · rw [emitted_stepFrame] at hp
    exact stampFragments_timestamp ts ctr _ _ 0 p hp
  · show (ts + 90000 / fps) % U32 = ts + 90000 / fps
    exact Nat.mod_eq_of_lt hts

theorem C1_witness :
    (0 + 90000 / 30 < U32 ∧
      (⟨⟨0, 0, true⟩, [1]⟩ : RTPPacket) ∈
        emitted (stepFrame (90000 / 30) ⟨0, 0⟩ [1]).2) ∧
    ((⟨⟨0, 0, true⟩, [1]⟩ : RTPPacket).header.timestamp = 0 ∧
      ((stepFrame (90000 / 30) ⟨0, 0⟩ [1]).1).timestamp = 0 + 90000 / 30) :=
  ⟨⟨by decide, by decide⟩,
    C1_timestamp_per_frame 30 0 0 [1] ⟨⟨0, 0, true⟩, [1]⟩ (by decide) (by decide)⟩

/-- C2: packetizing a payload of `S ≥ 1` bytes with maximum payload size
`M ≥ 1` and stamping the fragments as the loop does yields exactly
`⌈S/M⌉ = (S + M - 1) / M` fragments whose payloads concatenate back to
the original payload in byte order, and the marker bit is false on every
fragment except the last, which is true. -/
theorem C2_fragment_count_order_marker (data : List Byte) (mtu ts ctr : Nat)
    (hS : 1 ≤ data.length) (hM : 1 ≤ mtu) :
    (emitFrame mtu ts ctr data).length = (data.length + mtu - 1) / mtu ∧
    ((emitFrame mtu ts ctr data).map RTPPacket.payload).flatten = data ∧
    (emitFrame mtu ts ctr data).map (fun p => p.header.marker) =
      List.replicate ((emitFrame mtu ts ctr data).length - 1) false ++ [true] := by
  have hlen := emitFrame_length mtu ts ctr data
  have hpos := Packetize_length_pos data mtu hM hS
  refine ⟨by rw [hlen, Packetize_length data mtu hM], ?_, ?_⟩
  · show ((stampFragments ts ctr ((Packetize data mtu).length - 1) 0
        (Packetize data mtu)).map RTPPacket.payload).flatten = data
    rw [stampFragments_map_payload, Packetize_join data mtu hM]
  · show (stampFragments ts ctr ((Packetize data mtu).length - 1) 0
        (Packetize data mtu)).map (fun p => p.header.marker) = _
    rw [hlen]
    exact stampFragments_markers ts ctr (Packetize data mtu) 0
      ((Packetize data mtu).length - 1) (by omega) (List.length_pos.1 (by omega))

theorem C2_witness :
    (1 ≤ ([1, 2, 3] : List Byte).length ∧ 1 ≤ 2) ∧
    ((emitFrame 2 5 7 [1, 2, 3]).length = (([1, 2, 3] : List Byte).length + 2 - 1) / 2 ∧
      ((emitFrame 2 5 7 [1, 2, 3]).map RTPPacket.payload).flatten = [1, 2, 3] ∧
      (emitFrame 2 5 7 [1, 2, 3]).map (fun p => p.header.marker) =
        List.replicate ((emitFrame 2 5 7 [1, 2, 3]).length - 1) false ++ [true]) :=
  ⟨⟨by decide, by decide⟩,
    C2_fragment_count_order_marker [1, 2, 3] 2 5 7 (by decide) (by decide)⟩

/-- C3: within one session's streaming loop (whose counter starts at 0),
whenever packets number `k` and `k+1` are both emitted and fewer than
`2^32` packets have been written so far (the uint32 counter has not
wrapped), the sequence number of packet `k+1` is exactly one more than
that of packet `k`. -/
theorem C3_seq_increment (fps k : Nat) (ticks : List TickInput) (p q : RTPPacket)
    (hk : k + 1 < U32)
    (hp : (emitted (streamFramesRun fps ticks))[k]? = some p)
    (hq : (emitted (streamFramesRun fps ticks))[k + 1]? = some q) :
    q.header.sequenceNumber = p.header.sequenceNumber + 1 := by
  have h1 := emitted_seq (90000 / fps) ticks ⟨0, 0⟩ k p hp
  have h2 := emitted_seq (90000 / fps) ticks ⟨0, 0⟩ (k + 1) q hq
  rw [h1, h2]
  show (0 + (k + 1)) % U32 = (0 + k) % U32 + 1
  rw [Nat.zero_add, Nat.zero_add, Nat.mod_eq_of_lt hk, Nat.mod_eq_of_lt (by omega)]

theorem C3_witness :
    (0 + 1 < U32 ∧
      (emitted (streamFramesRun 30 [TickInput.frame [1], TickInput.frame [2]]))[0]? =
        some ⟨⟨0, 0, true⟩, [1]⟩ ∧
      (emitted (streamFramesRun 30 [TickInput.frame [1], TickInput.frame [2]]))[0 + 1]? =
        some ⟨⟨3000, 1, true⟩, [2]⟩) ∧
    (⟨⟨3000, 1, true⟩, [2]⟩ : RTPPacket).header.sequenceNumber =
      (⟨⟨0, 0, true⟩, [1]⟩ : RTPPacket).header.sequenceNumber + 1 :=
  ⟨⟨by decide, by decide, by decide⟩,
    C3_seq_increment 30 0 [TickInput.frame [1], TickInput.frame [2]] _ _
      (by decide) (by decide) (by decide)⟩

/-- C4 counterexample: a PLAY emits two packets with sequence numbers 0
and 1 (so the pre-pause counter stands at 2), the connection leaves the
PLAY state (PAUSE, which stores nothing), and the next PLAY starts a new
`streamFrames` whose first packet carries sequence number 0 and timestamp
0 again: emission restarts from zero instead of resuming from the
pre-pause counter values. -/
theorem C4_counterexample :
    (emitted (OnPlayStream 30 [TickInput.frame [1], TickInput.frame [2],
        TickInput.notPlaying])).map (fun p => p.header.sequenceNumber) = [0, 1] ∧
    (emitted (OnPlayStream 30 [TickInput.frame [3]])).map
        (fun p => p.header.sequenceNumber) = [0] ∧
    (emitted (OnPlayStream 30 [TickInput.frame [3]])).map
        (fun p => p.header.timestamp) = [0] := by decide

/-- C4 amended: the sequence counter and timestamp are locals of each
streaming loop, initialized to zero every time PLAY starts one (rtsp.go
lines 193-194), and OnPause preserves nothing; so the first packet of any
PLAY — including a PLAY following a PAUSE — carries sequence number 0 and
(when the first frame is nonempty) timestamp 0, never the pre-pause
counter values. -/
theorem C4_counters_restart (fps : Nat) (d : List Byte) (ticks : List TickInput)
    (p : RTPPacket) (hd : 1 ≤ d.length)
    (hp : (emitted (OnPlayStream fps (TickInput.frame d :: ticks)))[0]? = some p) :
    p.header.sequenceNumber = 0 ∧ p.header.timestamp = 0 := by
  have hpos : 0 < (emitFrame 1400 (0 : Nat) 0 d).length := by
    rw [emitFrame_length]
    exact Packetize_length_pos d 1400 (by omega) hd
  have e : emitted (OnPlayStream fps (TickInput.frame d :: ticks)) =
      emitFrame 1400 0 0 d ++ emitted (streamFrames (90000 / fps)
        (stepFrame (90000 / fps) ⟨0, 0⟩ d).1 ticks) :=
    emitted_streamFrames_frame (90000 / fps) ⟨0, 0⟩ d ticks
  rw [e, List.getElem?_append_left hpos] at hp
  have h := emitFrame_getElem 1400 0 0 0 d p hp
  exact ⟨by rw [h.1]; decide, h.2.1⟩

theorem C4_witness :
    (1 ≤ ([5] : List Byte).length ∧
      (emitted (OnPlayStream 30 [TickInput.frame [5]]))[0]? =
        some ⟨⟨0, 0, true⟩, [5]⟩) ∧
    ((⟨⟨0, 0, true⟩, [5]⟩ : RTPPacket).header.sequenceNumber = 0 ∧
      (⟨⟨0, 0, true⟩, [5]⟩ : RTPPacket).header.timestamp = 0) :=
  ⟨⟨by decide, by decide⟩,
    C4_counters_restart 30 [5] [] ⟨⟨0, 0, true⟩, [5]⟩ (by decide) (by decide)⟩

/-- C5 counterexample: with the default configuration (stream path
"stream") and DESCRIBE already served, a SETUP for the mismatched path
"wrongpath" with a valid UDP transport does not fail with NotFound: it
succeeds and creates session state (the stream slice goes from nil to an
allocated record), because OnSetup never validates the path. -/
theorem C5_counterexample :
    (OnSetup postDescribeHandler
        { udpSetupCtx with path := "wrongpath" }).1 =
      SetupResult.ok { protocol := TransportProtocol.udp,
                       serverPorts := some (5000, 5001),
                       clientPorts := some (5000, 5001), interleavedIDs := none } ∧
    postDescribeHandler.streams = none ∧
    (OnSetup postDescribeHandler
        { udpSetupCtx with path := "wrongpath" }).2.streams =
      some [RtspStream.empty] := by decide

/-- C5 amended: OnSetup performs no path validation at all — its result
and state update are independent of the request path (only OnDescribe
checks the path against the configured stream path), so a SETUP on an
unknown path is processed exactly like one on the configured path and,
with a supported transport, succeeds and creates stream state. -/
theorem C5_no_path_check (h : HandlerState) (ctx : SetupCtx) (other : String) :
    OnSetup h { ctx with path := other } = OnSetup h ctx := rfl

/-- C6 counterexample: the first SETUP of a connection carrying an
unsupported transport protocol does change handler state: the stream
slice is initialized (before the protocol switch), so the handler goes
from `streams = none` to an allocated slice even though the request
fails with the error of the default switch arm. -/
theorem C6_counterexample :
    (OnSetup postDescribeHandler multicastSetupCtx).1 =
      SetupResult.error "unhandled transport protocol" ∧
    postDescribeHandler.streams = none ∧
    (OnSetup postDescribeHandler multicastSetupCtx).2 ≠ postDescribeHandler := by
  decide

/-- C6 amended: a SETUP whose transport protocol is neither UDP nor TCP
fails with the error "unhandled transport protocol" and negotiates no
transport, but on a connection's first SETUP the handler state does
change — the stream slice is initialized before the protocol check; a
subsequent valid UDP SETUP on the same connection still succeeds. -/
theorem C6_unsupported_transport (h : HandlerState) (ctx ctx2 : SetupCtx)
    (cp : Nat × Nat)
    (hproto : ctx.transport.protocol = TransportProtocol.udpMulticast)
    (hidx : ctx.mediaIndex < h.medias.length)
    (hnil : h.streams = none)
    (hproto2 : ctx2.transport.protocol = TransportProtocol.udp)
    (hcp : ctx2.transport.clientPorts = some cp)
    (hidx2 : ctx2.mediaIndex < h.medias.length) :
    (OnSetup h ctx).1 = SetupResult.error "unhandled transport protocol" ∧
    (OnSetup h ctx).2.streams = some (List.replicate h.medias.length RtspStream.empty) ∧
    (OnSetup (OnSetup h ctx).2 ctx2).1 =
      SetupResult.ok { protocol := TransportProtocol.udp, serverPorts := some cp,
                       clientPorts := some cp, interleavedIDs := none } := by
  have hi := initStreams_none h hnil
  have h1 := OnSetup_unhandled h ctx hproto (initStreams_none_idx h hnil _ hidx)
  refine ⟨by rw [h1], ?_, ?_⟩
  · rw [h1, hi]
  · have hi2 : initStreams (initStreams h) = initStreams h := by
      refine initStreams_some _ (List.replicate h.medias.length RtspStream.empty) ?_
      rw [hi]
    have hidx2i : ctx2.mediaIndex < ((initStreams (initStreams h)).streams.getD []).length := by
      rw [hi2, hi]
      show ctx2.mediaIndex < (List.replicate h.medias.length RtspStream.empty).length
      rw [List.length_replicate]
      exact hidx2
    have h2 := OnSetup_udp (initStreams h) ctx2 cp hproto2 hcp hidx2i
    rw [h1]
    show (OnSetup (initStreams h) ctx2).1 = _
    rw [h2]

theorem C6_witness :
    (multicastSetupCtx.transport.protocol = TransportProtocol.udpMulticast ∧
      multicastSetupCtx.mediaIndex < postDescribeHandler.medias.length ∧
      postDescribeHandler.streams = none ∧
      udpSetupCtx.transport.protocol = TransportProtocol.udp ∧
      udpSetupCtx.transport.clientPorts = some (5000, 5001) ∧
      udpSetupCtx.mediaIndex < postDescribeHandler.medias.length) ∧
    ((OnSetup postDescribeHandler multicastSetupCtx).1 =
        SetupResult.error "unhandled transport protocol" ∧
      (OnSetup postDescribeHandler multicastSetupCtx).2.streams =
        some (List.replicate postDescribeHandler.medias.length RtspStream.empty) ∧
      (OnSetup (OnSetup postDescribeHandler multicastSetupCtx).2 udpSetupCtx).1 =
        SetupResult.ok { protocol := TransportProtocol.udp,
                         serverPorts := some (5000, 5001),
                         clientPorts := some (5000, 5001), interleavedIDs := none }) :=
  ⟨⟨by decide, by decide, by decide, by decide, by decide, by decide⟩,
    C6_unsupported_transport postDescribeHandler multicastSetupCtx udpSetupCtx
      (5000, 5001) (by decide) (by decide) (by decide) (by decide) (by decide)
      (by decide)⟩

/-- C7 counterexample: a successful UDP SETUP allocates and binds
nothing: with client ports (5000, 5001) the response reports exactly the
client's ports as the server ports, and the stream record created by the
SETUP has both listener fields still nil — no server-side port pair was
allocated and no listener was bound. -/
theorem C7_counterexample :
    (OnSetup postDescribeHandler udpSetupCtx).1 =
      SetupResult.ok { protocol := TransportProtocol.udp,
                       serverPorts := some (5000, 5001),
                       clientPorts := some (5000, 5001), interleavedIDs := none } ∧
    (OnSetup postDescribeHandler udpSetupCtx).2.streams =
      some [{ udpRTPListener := none, udpRTCPListener := none }] := by decide

/-- C7 amended: for every UDP SETUP with advertised client ports the
handler merely echoes the client's ports back as the server ports of the
response — it allocates no server-side port pair, binds no listeners (the
stream records created by SETUP keep nil listener fields), and records no
send target in handler state. -/
theorem C7_udp_echo (h : HandlerState) (ctx : SetupCtx) (cp : Nat × Nat)
    (hproto : ctx.transport.protocol = TransportProtocol.udp)
    (hcp : ctx.transport.clientPorts = some cp)
    (hnil : h.streams = none)
    (hidx : ctx.mediaIndex < h.medias.length) :
    (OnSetup h ctx).1 =
      SetupResult.ok { protocol := TransportProtocol.udp, serverPorts := some cp,
                       clientPorts := some cp, interleavedIDs := none } ∧
    (OnSetup h ctx).2.streams =
      some (List.replicate h.medias.length RtspStream.empty) := by
  have h1 := OnSetup_udp h ctx cp hproto hcp (initStreams_none_idx h hnil _ hidx)
  exact ⟨by rw [h1], by rw [h1, initStreams_none h hnil]⟩

theorem C7_witness :
    (udpSetupCtx.transport.protocol = TransportProtocol.udp ∧
      udpSetupCtx.transport.clientPorts = some (5000, 5001) ∧
      postDescribeHandler.streams = none ∧
      udpSetupCtx.mediaIndex < postDescribeHandler.medias.length) ∧
    ((OnSetup postDescribeHandler udpSetupCtx).1 =
        SetupResult.ok { protocol := TransportProtocol.udp,
                         serverPorts := some (5000, 5001),
                         clientPorts := some (5000, 5001), interleavedIDs := none } ∧
      (OnSetup postDescribeHandler udpSetupCtx).2.streams =
        some (List.replicate postDescribeHandler.medias.length RtspStream.empty)) :=
  ⟨⟨by decide, by decide, by decide, by decide⟩,
    C7_udp_echo postDescribeHandler udpSetupCtx (5000, 5001)
      (by decide) (by decide) (by decide) (by decide)⟩

/-- C8 counterexample: there is no bound `N` of consecutive frame-read
failures after which the streaming loop is escalated to teardown: for
every `N`, a loop that sees `N` consecutive read errors still processes
the next frame and writes its packets — the loop is never stopped by
failures. -/
theorem C8_counterexample :
    ¬ ∃ N : Nat, ∀ d : List Byte,
        emitted (streamFramesRun 30
          (List.replicate N TickInput.frameError ++ [TickInput.frame d])) = [] := by
  rintro ⟨N, hN⟩
  have h := hN [1]
  unfold streamFramesRun at h
  rw [streamFrames_replicate_err, emitted_append, emitted_replicate_err,
      List.nil_append] at h
  have h2 : emitted (streamFrames (90000 / 30) ⟨0, 0⟩ [TickInput.frame [1]]) =
      [⟨⟨0, 0, true⟩, [1]⟩] := by decide
  rw [h2] at h
  exact absurd h (by decide)

/-- C8 amended: a frame-read error on a tick is logged and the tick
skipped without terminating the session — but there is no bounded
escalation: any number `n` of consecutive read failures leaves the loop
state unchanged and the loop running, the trace being `n` error events
followed by exactly the emission the remaining ticks produce anyway. -/
theorem C8_skip_no_escalation (fps n : Nat) (ticks : List TickInput) :
    streamFramesRun fps (List.replicate n TickInput.frameError ++ ticks) =
      List.replicate n Event.getFrameErr ++ streamFramesRun fps ticks :=
  streamFrames_replicate_err (90000 / fps) n ⟨0, 0⟩ ticks

/-- C9 counterexample: session state is shared mutably across
connections. Connection 2 issues DESCRIBE then SETUP. On a fresh server
this succeeds; but if connection 1 already issued one SETUP beforehand
(which froze the shared handler's stream slice at the then-empty media
list), connection 2's identical requests now end in a panic on the
out-of-range stream index — one connection's request changed the outcome
of another connection's, which is impossible for state owned by exactly
one connection. -/
theorem C9_counterexample :
    (serverOnSetup 2 (serverOnDescribe 2 freshServer "stream").2 udpSetupCtx).1 =
      SetupResult.ok { protocol := TransportProtocol.udp,
                       serverPorts := some (5000, 5001),
                       clientPorts := some (5000, 5001), interleavedIDs := none } ∧
    (serverOnSetup 2 (serverOnDescribe 1
        (serverOnSetup 1 freshServer udpSetupCtx).2 "stream").2 udpSetupCtx).1 =
      SetupResult.panicked := by decide

/-- C9 amended: the handler — medias, video track and stream records — is
one mutable instance shared by every connection: the server dispatches
all connections to the same handler state, so a request's effect is
independent of which connection issued it. Only the sequence and
timestamp counters are locals of each PLAY's streaming goroutine, so
concurrent sessions do receive independently numbered packet streams
(packet `k` of any session's run carries sequence number `k mod 2^32`
regardless of other sessions). -/
theorem C9_shared_handler_local_counters (connA connB : Nat) (s : ServerState)
    (ctx : SetupCtx) (fps k : Nat) (ticks : List TickInput) (p : RTPPacket)
    (hp : (emitted (streamFramesRun fps ticks))[k]? = some p) :
    serverOnSetup connA s ctx = serverOnSetup connB s ctx ∧
    p.header.sequenceNumber = k % U32 := by
  refine ⟨rfl, ?_⟩
  have h := emitted_seq (90000 / fps) ticks ⟨0, 0⟩ k p hp
  rw [h]
  show (0 + k) % U32 = k % U32
  rw [Nat.zero_add]

theorem C9_witness :
    ((emitted (streamFramesRun 30 [TickInput.frame [9]]))[0]? =
      some ⟨⟨0, 0, true⟩, [9]⟩) ∧
    (serverOnSetup 1 freshServer udpSetupCtx = serverOnSetup 2 freshServer udpSetupCtx ∧
      (⟨⟨0, 0, true⟩, [9]⟩ : RTPPacket).header.sequenceNumber = 0 % U32) :=
  ⟨by decide,
    C9_shared_handler_local_counters 1 2 freshServer udpSetupCtx 30 0
      [TickInput.frame [9]] ⟨⟨0, 0, true⟩, [9]⟩ (by decide)⟩

/-- C10: in every streaming-loop iteration that obtains a frame from the
camera, the frame buffer is released back exactly once, after all of that
frame's packets have been written and before the next frame is pulled:
every trace the loop can produce satisfies the
acquire-then-writes-then-one-release discipline. -/
theorem C10_release_once_per_frame (fps : Nat) (ticks : List TickInput) :
    releaseOK false (streamFramesRun fps ticks) = true :=
  releaseOK_streamFrames (90000 / fps) ticks ⟨0, 0⟩

end OnstageCam
